import Mathlib

/-
Verification of the demo recording daemon and its synthetic input engine
(guest daemon `daemon.py`, screencast wrapper `lib/screencast.py`, input
engine `lib/input.py`).

The Python modules are embedded shallowly:
* external effects (the D-Bus screencast service, the evdev UInput device
  creation, dynamic module loading) are passed in as explicit oracle values;
* mutable state (the per-instance `Screencast` fields, the module-global
  uinput device handle, the tracked pointer position) is threaded explicitly;
* Python floats are modelled as rationals, and Python `int()` applied to a
  float is modelled as truncation toward zero (`pyTrunc`);
* raised exceptions are modelled with `Except` / an explicit error datatype.
-/

/-- Kinds of Python exceptions the embedded code can raise.  `userError`
stands for an arbitrary exception raised by scenario code. -/
inductive PyError where
  | fileNotFound (msg : String)
  | importError (msg : String)
  | attributeError (msg : String)
  | zeroDivisionError
  | userError (msg : String)
deriving DecidableEq, Repr

/-- Python `str(e)` applied to an exception: its message. -/
def PyError.str : PyError → String
  | .fileNotFound m => m
  | .importError m => m
  | .attributeError m => m
  | .zeroDivisionError => "division by zero"
  | .userError m => m

/-- Outcome of a synchronous D-Bus call: a returned value, or a raised
`GLib.Error`. -/
inductive DBusResult (α : Type) where
  | ok (val : α)
  | glibError (msg : String)
deriving DecidableEq, Repr

/-- Python values as they matter to the screencast options builder
(`screencast.py` lines 60-76): bools, ints and strings are converted to
variants, every other type is silently skipped. -/
inductive PyValue where
  | pybool (b : Bool)
  | pyint (n : Int)
  | pystr (s : String)
  | pyother
deriving DecidableEq, Repr

/-- The `a{sv}` options variant built by `Screencast.start`: entries whose
value is not a bool, int or string are dropped (`continue`). -/
def buildOptions (options : List (String × PyValue)) : List (String × PyValue) :=
  options.filter fun kv =>
    match kv.2 with
    | .pyother => false
    | _ => true

/-- State of one `Screencast` object (`screencast.py`): the `_recording`
flag, the `_output_path` field, and whether `_proxy` has been created. -/
structure Screencast where
  recording : Bool
  output_path : Option String
  proxyCreated : Bool
deriving DecidableEq, Repr

/-- `Screencast.__init__`: not recording, no output path, no proxy. -/
def Screencast.init : Screencast :=
  { recording := false, output_path := none, proxyCreated := false }

/-- `Screencast.start(output_path)` (`screencast.py` lines 42-99).  The
D-Bus `Screencast` call is abstracted by the oracle `svc`.  Returns the
boolean result, the new object state, and whether the service call was
issued.  The guard `if self._recording: return False` runs before
`self._output_path` is assigned and before the proxy is created. -/
def Screencast.start (s : Screencast) (outputPath : String)
    (svc : DBusResult (Bool × String)) : Bool × Screencast × Bool :=
  if s.recording then (false, s, false)
  else
    let s1 : Screencast := { s with output_path := some outputPath, proxyCreated := true }
    match svc with
    | .ok (success, _path) =>
        if success then (true, { s1 with recording := true }, true)
        else (false, s1, true)
    | .glibError _ => (false, s1, true)

/-- `Screencast.stop()` (`screencast.py` lines 101-129).  The D-Bus
`StopScreencast` call is abstracted by the oracle `svc`.  The guard
`if not self._recording: return False` runs first; on service failure or
a raised `GLib.Error` the object stays recording. -/
def Screencast.stop (s : Screencast) (svc : DBusResult Bool) :
    Bool × Screencast × Bool :=
  if !s.recording then (false, s, false)
  else
    let s1 : Screencast := { s with proxyCreated := true }
    match svc with
    | .ok success =>
        if success then (true, { s1 with recording := false }, true)
        else (false, s1, true)
    | .glibError _ => (false, s1, true)

/-- Outcome of dynamically loading a scenario module named `name`
(`daemon.py` lines 35-43): `spec_from_file_location` may return `None`,
`exec_module` may raise, or the module loads with or without a `run`
attribute, whose behaviour when called is an `Except` value. -/
inductive LoadResult where
  | specNone
  | execRaises (msg : String)
  | loaded (hasRun : Bool) (run : Except String Unit)

/-- A loaded scenario module: its `run()` entry point either returns or
raises an exception carrying a message. -/
structure Scenario where
  run : Except String Unit

/-- `load_scenario(name)` (`daemon.py` lines 28-45).  The scenarios
directory is modelled as the list of its filenames; dynamic loading is
abstracted by the `loader` oracle.  The `SCENARIOS_DIR` path prefix of the
not-found message is elided. -/
def load_scenario (dir : List String) (loader : String → LoadResult)
    (name : String) : Except PyError Scenario :=
  let scenarioPath := name ++ ".py"
  if scenarioPath ∈ dir then
    match loader name with
    | .specNone => .error (.importError ("Cannot load scenario: " ++ name))
    | .execRaises m => .error (.userError m)
    | .loaded hasRun run =>
        if hasRun then .ok ⟨run⟩
        else .error (.attributeError ("Scenario " ++ name ++ " must have a run function"))
  else
    .error (.fileNotFound ("Scenario not found: " ++ scenarioPath))

/-- `SCENARIOS_DIR.glob("*.py")` membership test: the filename ends in
`.py`.  Unlike the `glob` module, `pathlib` glob patterns also match
dot-prefixed filenames such as `.hidden.py` and `.py`. -/
def globPyMatch (f : String) : Bool :=
  f.endsWith ".py"

/-- `Path.stem` of a filename matched by `*.py`: the name minus its `.py`
suffix — except for the filename `.py` itself, whose only dot is the
leading one, which `pathlib` does not treat as a suffix separator: its
stem is the whole name.  (For every other `*.py` match the last dot sits
3 characters from the end at a positive index, so the suffix is `.py` and
the stem drops those 3 characters.) -/
def pyStem (f : String) : String :=
  if f = ".py" then f else f.dropRight 3

/-- The `list_scenarios` enumeration (`daemon.py` lines 80-85): stems of
the `*.py` entries of the scenarios directory whose stem does not start
with an underscore. -/
def list_scenarios (dir : List String) : List String :=
  ((dir.filter globPyMatch).map pyStem).filter fun s => !(s.startsWith "_")

/-- A parsed JSON command as `handle_command` reads it with `cmd.get`:
every field may be absent. -/
structure Command where
  action : Option String := none
  scenario : Option String := none
  output : Option String := none
  pre_delay : Option ℚ := none
  post_delay : Option ℚ := none
deriving DecidableEq, Repr

/-- A JSON response object. -/
structure Response where
  status : String
  message : Option String := none
  output : Option String := none
  scenarios : Option (List String) := none
deriving DecidableEq, Repr

/-- The external collaborators of one `handle_command` call: the scenarios
directory listing, the module loader, and the two D-Bus call outcomes. -/
structure RecordEnv where
  dir : List String
  loader : String → LoadResult
  startSvc : DBusResult (Bool × String)
  stopSvc : DBusResult Bool

/-- Observable effects of one `handle_command` call: whether the D-Bus
start call was issued, how many times `screencast.stop()` was invoked, and
the final state of the `Screencast` object the command created (if any). -/
structure RecordTrace where
  serviceStartCalled : Bool
  stopCalls : Nat
  finalSession : Option Screencast
deriving DecidableEq, Repr

/-- Trace of a command that never touched the screencast machinery. -/
def RecordTrace.empty : RecordTrace :=
  { serviceStartCalled := false, stopCalls := 0, finalSession := none }

/-- Python `f"{x}"` on an optional string: `None` prints as `"None"`. -/
def pyShowOpt : Option String → String
  | some a => a
  | none => "None"

/-- `handle_command(cmd)` (`daemon.py` lines 48-88).  The `record` branch
constructs a fresh `Screencast()` (line 66), starts it, runs the scenario
between the two delays, and stops it in a `finally` block; an exception
raised by `scenario.run()` propagates (as the `Except.error` result) after
the `finally` has invoked `stop()`.  The `time.sleep` calls have no
observable effect here and are not modelled. -/
def handle_command (env : RecordEnv) (cmd : Command) :
    Except PyError Response × RecordTrace :=
  if cmd.action = some "ping" then
    (.ok { status := "ok", message := some "pong" }, RecordTrace.empty)
  else if cmd.action = some "record" then
    let scenarioName := pyShowOpt cmd.scenario
    let outputPath := cmd.output.getD "/tmp/recording.webm"
    match load_scenario env.dir env.loader scenarioName with
    | .error e => (.ok { status := "error", message := some e.str }, RecordTrace.empty)
    | .ok scen =>
        let startRes := Screencast.init.start outputPath env.startSvc
        if startRes.1 = false then
          (.ok { status := "error", message := some "Failed to start recording" },
           { serviceStartCalled := startRes.2.2, stopCalls := 0,
             finalSession := some startRes.2.1 })
        else
          match scen.run with
          | .ok _ =>
              let stopRes := startRes.2.1.stop env.stopSvc
              (.ok { status := "ok", output := some outputPath },
               { serviceStartCalled := startRes.2.2, stopCalls := 1,
                 finalSession := some stopRes.2.1 })
          | .error m =>
              let stopRes := startRes.2.1.stop env.stopSvc
              (.error (.userError m),
               { serviceStartCalled := startRes.2.2, stopCalls := 1,
                 finalSession := some stopRes.2.1 })
  else if cmd.action = some "list_scenarios" then
    (.ok { status := "ok", scenarios := some (list_scenarios env.dir) }, RecordTrace.empty)
  else
    (.ok { status := "error", message := some ("Unknown action: " ++ pyShowOpt cmd.action) },
     RecordTrace.empty)

/-- The response `handle_client` sends back (`daemon.py` lines 105-114):
a JSON parse failure yields an `Invalid JSON` error response; an exception
propagating out of `handle_command` is caught and reported with its
message. -/
def handle_client_result (env : RecordEnv) (parsed : Except String Command) :
    Response × RecordTrace :=
  match parsed with
  | .error e => ({ status := "error", message := some ("Invalid JSON: " ++ e) }, RecordTrace.empty)
  | .ok cmd =>
      match handle_command env cmd with
      | (.ok r, tr) => (r, tr)
      | (.error e, tr) => ({ status := "error", message := some e.str }, tr)

/-- The D-Bus start call does not report success: the service either
returns `success = False` or raises. -/
def startReportsFailure : DBusResult (Bool × String) → Bool
  | .ok (succ, _) => !succ
  | .glibError _ => true

/-- The D-Bus start call reports success. -/
def startReportsSuccess : DBusResult (Bool × String) → Bool
  | .ok (succ, _) => succ
  | .glibError _ => false

/-- The virtual uinput device handle, opaque apart from identity. -/
structure Device where
  id : Nat
deriving DecidableEq, Repr, Inhabited

/-- `_get_uinput_device()` (`input.py` lines 19-38).  The module-global
`_uinput_device` is the first argument; `create` abstracts the fallible
`UInput(cap, ...)` construction.  Returns the value the function returns,
the new value of the global, and whether a creation attempt was made.
On failure the function prints and returns `None`, leaving the global
unset. -/
def getUInputDevice (g : Option Device) (create : Except String Device) :
    Option Device × Option Device × Bool :=
  match g with
  | some d => (some d, some d, false)
  | none =>
      match create with
      | .ok d => (some d, some d, true)
      | .error _ => (none, none, true)

/-- One emission of the `smooth_move` loop body: a relative `(dx, dy)`
pair written to the uinput device, or an absolute `(x, y)` position passed
to the fallback tool. -/
inductive Emission where
  | rel (dx dy : Int)
  | abs (x y : Int)
deriving DecidableEq, Repr, Inhabited

/-- The dx of a relative emission, 0 otherwise. -/
def relDx : Emission → Int
  | .rel dx _ => dx
  | .abs _ _ => 0

/-- The dy of a relative emission, 0 otherwise. -/
def relDy : Emission → Int
  | .rel _ dy => dy
  | .abs _ _ => 0

/-- Python `int()` applied to a (here rational-valued) float: truncation
toward zero. -/
def pyTrunc (q : ℚ) : ℤ := if q < 0 then ⌈q⌉ else ⌊q⌋

/-- The ease-in-out curve `t * t * (3 - 2 * t)` (`input.py` line 140). -/
def smoothstep (t : ℚ) : ℚ := t * t * (3 - 2 * t)

/-- The target cumulative displacement at loop index `i`
(`input.py` lines 138-143): `int(total * smoothstep(i / steps))`. -/
def targetMoved (total : ℤ) (steps : Nat) (i : Nat) : ℤ :=
  pyTrunc ((total : ℚ) * smoothstep ((i : ℚ) / (steps : ℚ)))

/-- The loop of `smooth_move` (`input.py` lines 137-162) over a list of
indices, threading the `moved_x` / `moved_y` accumulators and collecting
the emissions.  With uinput available the body emits the delta between the
new target cumulative displacement and the previous one; otherwise it
emits the absolute target position. -/
def runLoop (avail : Bool) (fromX fromY totalDx totalDy : ℤ) (steps : Nat) :
    List Nat → ℤ × ℤ → List Emission × ℤ × ℤ
  | [], mv => ([], mv)
  | i :: rest, (movedX, movedY) =>
      let tx := targetMoved totalDx steps i
      let ty := targetMoved totalDy steps i
      let em := if avail then Emission.rel (tx - movedX) (ty - movedY)
                else Emission.abs (fromX + tx) (fromY + ty)
      let r := runLoop avail fromX fromY totalDx totalDy steps rest (tx, ty)
      (em :: r.1, r.2)

/-- The full emission sequence of one `smooth_move` call with `steps ≥ 1`:
the loop run over `range(steps + 1)` starting from zero accumulators. -/
def plannedPath (avail : Bool) (fromX fromY totalDx totalDy : ℤ) (steps : Nat) :
    List Emission :=
  (runLoop avail fromX fromY totalDx totalDy steps (List.range (steps + 1)) (0, 0)).1

/-- State of the input module (`input.py` module globals): the tracked
pointer position `_last_x` / `_last_y` and the `_uinput_device` global. -/
structure InputState where
  lastX : ℤ
  lastY : ℤ
  uinputDevice : Option Device
deriving DecidableEq, Repr

/-- `smooth_move(to_x, to_y, steps, duration)` (`input.py` lines 117-164).
The start position is the tracked position (the `_get_mouse_position`
branch that does not shell out); `create` abstracts uinput device
creation, attempted by the availability check on line 135 before the loop.
With `steps = 0` the first loop iteration evaluates `0 / 0` and raises
`ZeroDivisionError`, so no emission is made and the tracked position is
not updated.  Otherwise the loop emits the planned path and line 164 sets
the tracked position to the exact target. -/
def smooth_move (st : InputState) (toX toY : ℤ) (steps : Nat) (duration : ℚ)
    (create : Except String Device) :
    Except PyError (List Emission) × InputState :=
  let fromX := st.lastX
  let fromY := st.lastY
  let totalDx := toX - fromX
  let totalDy := toY - fromY
  let dres := getUInputDevice st.uinputDevice create
  let uinputAvailable := dres.1.isSome
  let st1 : InputState := { st with uinputDevice := dres.2.1 }
  if steps = 0 then
    (.error .zeroDivisionError, st1)
  else
    (.ok (plannedPath uinputAvailable fromX fromY totalDx totalDy steps),
     { st1 with lastX := toX, lastY := toY })

/-- The emission the loop makes at index `i`, phrased against the target
cumulative displacements: the delta from the previous target (which is the
accumulator value entering iteration `i`). -/
def plannedStep (avail : Bool) (fromX fromY totalDx totalDy : ℤ) (steps : Nat)
    (i : Nat) : Emission :=
  if avail then
    .rel (targetMoved totalDx steps i - targetMoved totalDx steps (i - 1))
         (targetMoved totalDy steps i - targetMoved totalDy steps (i - 1))
  else
    .abs (fromX + targetMoved totalDx steps i) (fromY + targetMoved totalDy steps i)

/-- C6: invalid recording-session transitions return failure and leave the
state (recording flag, output path, proxy) unchanged: `stop()` on an idle
session, and `start()` on a recording session. -/
theorem invalid_transitions_unchanged (s : Screencast) (path : String)
    (svcStart : DBusResult (Bool × String)) (svcStop : DBusResult Bool) :
    (s.recording = false → s.stop svcStop = (false, s, false)) ∧
    (s.recording = true → s.start path svcStart = (false, s, false)) := by
  constructor
  · intro h
    simp [Screencast.stop, h]
  · intro h
    simp [Screencast.start, h]

/-- Witness for `invalid_transitions_unchanged` at concrete sessions. -/
theorem invalid_transitions_unchanged_witness :
    Screencast.init.stop (.ok true) = (false, Screencast.init, false) ∧
    Screencast.start { recording := true, output_path := none, proxyCreated := false }
      "/tmp/x.webm" (.ok (true, "/tmp/x.webm")) =
      (false, { recording := true, output_path := none, proxyCreated := false }, false) :=
  ⟨(invalid_transitions_unchanged Screencast.init "/tmp/x.webm"
      (.ok (true, "/tmp/x.webm")) (.ok true)).1 rfl,
   (invalid_transitions_unchanged
      { recording := true, output_path := none, proxyCreated := false } "/tmp/x.webm"
      (.ok (true, "/tmp/x.webm")) (.ok true)).2 rfl⟩

/-- C10: when `start(path)` proceeds past the idle guard and the service
call fails (reported failure or raised error), the call returns `False`
and the session is still not recording, but `_output_path` has already
been overwritten with the requested path. -/
theorem start_failure_overwrites_output_path (s : Screencast) (path : String)
    (svc : DBusResult (Bool × String)) (h1 : s.recording = false)
    (h2 : startReportsFailure svc = true) :
    (s.start path svc).1 = false ∧
    (s.start path svc).2.1.recording = false ∧
    (s.start path svc).2.1.output_path = some path := by
  cases svc with
  | ok v =>
      obtain ⟨succ, p⟩ := v
      simp [startReportsFailure] at h2
      simp [Screencast.start, h1, h2]
  | glibError m =>
      simp [Screencast.start, h1]

/-- Witness for `start_failure_overwrites_output_path`: a raised
`GLib.Error` on a fresh session. -/
theorem start_failure_overwrites_output_path_witness :
    (Screencast.init.start "/tmp/fail.webm" (.glibError "timeout")).1 = false ∧
    (Screencast.init.start "/tmp/fail.webm" (.glibError "timeout")).2.1.recording = false ∧
    (Screencast.init.start "/tmp/fail.webm" (.glibError "timeout")).2.1.output_path =
      some "/tmp/fail.webm" :=
  start_failure_overwrites_output_path Screencast.init "/tmp/fail.webm"
    (.glibError "timeout") rfl rfl

/-- C4 counterexample: after `UInput` creation fails once (the global stays
`None`), the very next call attempts creation again — and here succeeds —
refuting the claim that a failed backend creation is recorded as
unavailable and never re-attempted. -/
theorem uinput_retry_counterexample :
    getUInputDevice none (.error "Permission denied") = (none, none, true) ∧
    (getUInputDevice (getUInputDevice none (.error "Permission denied")).2.1
      (.ok ⟨0⟩)).2.2 = true ∧
    (getUInputDevice (getUInputDevice none (.error "Permission denied")).2.1
      (.ok ⟨0⟩)).1 = some ⟨0⟩ ∧
    (smooth_move ⟨0, 0, (getUInputDevice none (.error "Permission denied")).2.1⟩
      10 10 5 1 (.ok ⟨0⟩)).2.uinputDevice = some ⟨0⟩ := by
  refine ⟨rfl, rfl, rfl, ?_⟩
  simp [smooth_move, getUInputDevice]

/-- C4 amended: a successfully created device is cached in the module
global and creation is never re-attempted; a failed creation leaves the
global `None`, so the next operation attempts creation again (and uses the
device if that attempt succeeds). -/
theorem uinput_creation_caching (d : Device) (m : String)
    (create : Except String Device) :
    getUInputDevice (some d) create = (some d, some d, false) ∧
    getUInputDevice none (.error m) = (none, none, true) ∧
    getUInputDevice none (.ok d) = (some d, some d, true) :=
  ⟨rfl, rfl, rfl⟩

/-- C5 amended: `smooth_move` with `steps = 0` raises `ZeroDivisionError`
(`t = i / steps` with `i = 0`, `steps = 0`) before emitting anything, and
the tracked position is left unchanged — it does not jump to the target. -/
theorem zero_steps_raises (st : InputState) (toX toY : ℤ) (duration : ℚ)
    (create : Except String Device) :
    (smooth_move st toX toY 0 duration create).1 = .error .zeroDivisionError ∧
    (smooth_move st toX toY 0 duration create).2.lastX = st.lastX ∧
    (smooth_move st toX toY 0 duration create).2.lastY = st.lastY := by
  refine ⟨?_, ?_, ?_⟩ <;> simp [smooth_move]

/-- C5 counterexample: at tracked position `(5, 7)`, a move to
`(100, 200)` with `steps = 0` raises `ZeroDivisionError` and leaves the
tracked position at `(5, 7) ≠ (100, 200)` — the claim that the position
jumps to the target without error is false. -/
theorem zero_steps_counterexample :
    (smooth_move ⟨5, 7, none⟩ 100 200 0 (1/2) (.error "no uinput")).1 =
      .error .zeroDivisionError ∧
    (smooth_move ⟨5, 7, none⟩ 100 200 0 (1/2) (.error "no uinput")).2.lastX = 5 ∧
    (smooth_move ⟨5, 7, none⟩ 100 200 0 (1/2) (.error "no uinput")).2.lastY = 7 ∧
    (5 : ℤ) ≠ 100 := by
  refine ⟨?_, ?_, ?_, ?_⟩ <;> simp [smooth_move]

/-- Truncation toward zero is monotone. -/
theorem pyTrunc_mono {x y : ℚ} (h : x ≤ y) : pyTrunc x ≤ pyTrunc y := by
  unfold pyTrunc
  split_ifs with h1 h2
  · exact Int.ceil_le_ceil h
  · exact le_trans (Int.ceil_le.mpr (by exact_mod_cast h1.le))
      (Int.floor_nonneg.mpr (le_of_not_lt h2))
  · exact absurd (lt_of_le_of_lt h (by assumption)) h1
  · exact Int.floor_le_floor h

/-- The ease-in-out curve is monotone on `[0, 1]`. -/
theorem smoothstep_mono {t u : ℚ} (ht : 0 ≤ t) (htu : t ≤ u) (hu : u ≤ 1) :
    smoothstep t ≤ smoothstep u := by
  unfold smoothstep
  have h01 : 0 ≤ u - t := sub_nonneg.2 htu
  have h0u : 0 ≤ u := ht.trans htu
  have ht1 : t ≤ 1 := htu.trans hu
  have h1t : 0 ≤ 1 - t := sub_nonneg.2 ht1
  have h1u : 0 ≤ 1 - u := sub_nonneg.2 hu
  nlinarith [mul_nonneg (mul_nonneg h01 h0u) h1u,
    mul_nonneg (mul_nonneg h01 ht) h1t,
    mul_nonneg (mul_nonneg h01 h0u) h1t,
    mul_nonneg (mul_nonneg h01 ht) h1u]

/-- At index 0 the target cumulative displacement is 0. -/
theorem targetMoved_zero (total : ℤ) (steps : Nat) :
    targetMoved total steps 0 = 0 := by
  simp [targetMoved, smoothstep, pyTrunc]

/-- At the last index the target cumulative displacement is exactly the
total displacement: `smoothstep(steps / steps) = 1` and `int()` of an
integer-valued float is that integer. -/
theorem targetMoved_last (total : ℤ) {steps : Nat} (h : 1 ≤ steps) :
    targetMoved total steps steps = total := by
  unfold targetMoved
  have hs : (steps : ℚ) ≠ 0 := Nat.cast_ne_zero.mpr (by omega)
  rw [div_self hs]
  have h1 : smoothstep 1 = 1 := by norm_num [smoothstep]
  rw [h1, mul_one]
  unfold pyTrunc
  split
  · exact Int.ceil_intCast total
  · exact Int.floor_intCast total

/-- For a nonnegative total displacement the target cumulative
displacement is nondecreasing in the step index. -/
theorem targetMoved_le (total : ℤ) (h : 0 ≤ total) {steps i j : Nat}
    (hs : 1 ≤ steps) (hij : i ≤ j) (hj : j ≤ steps) :
    targetMoved total steps i ≤ targetMoved total steps j := by
  unfold targetMoved
  have hsp : (0 : ℚ) < steps := by exact_mod_cast Nat.lt_of_lt_of_le Nat.zero_lt_one hs
  apply pyTrunc_mono
  apply mul_le_mul_of_nonneg_left _ (by exact_mod_cast h)
  apply smoothstep_mono (by positivity)
  · exact div_le_div_of_nonneg_right (by exact_mod_cast hij) hsp.le
  · exact (div_le_one hsp).mpr (by exact_mod_cast hj)

/-- For a nonpositive total displacement the target cumulative
displacement is nonincreasing in the step index. -/
theorem targetMoved_ge (total : ℤ) (h : total ≤ 0) {steps i j : Nat}
    (hs : 1 ≤ steps) (hij : i ≤ j) (hj : j ≤ steps) :
    targetMoved total steps j ≤ targetMoved total steps i := by
  unfold targetMoved
  have hsp : (0 : ℚ) < steps := by exact_mod_cast Nat.lt_of_lt_of_le Nat.zero_lt_one hs
  apply pyTrunc_mono
  apply mul_le_mul_of_nonpos_left _ (by exact_mod_cast h)
  apply smoothstep_mono (by positivity)
  · exact div_le_div_of_nonneg_right (by exact_mod_cast hij) hsp.le
  · exact (div_le_one hsp).mpr (by exact_mod_cast hj)

/-- The loop over a block of consecutive indices, entered with the
accumulators holding the previous index's targets, emits exactly the
per-index planned steps. -/
theorem runLoop_range' (avail : Bool) (fX fY tx ty : ℤ) (steps : Nat) :
    ∀ (k a : Nat),
      (runLoop avail fX fY tx ty steps (List.range' a k)
        (targetMoved tx steps (a - 1), targetMoved ty steps (a - 1))).1 =
      (List.range' a k).map (plannedStep avail fX fY tx ty steps) := by
  intro k
  induction k with
  | zero => intro a; simp [runLoop]
  | succ n ih =>
      intro a
      rw [List.range'_succ]
      have h := ih (a + 1)
      rw [Nat.add_sub_cancel] at h
      simp only [runLoop, List.map_cons, plannedStep]
      rw [h]

/-- The full planned path is the per-index planned steps over
`range(steps + 1)`. -/
theorem plannedPath_eq (avail : Bool) (fX fY tx ty : ℤ) (steps : Nat) :
    plannedPath avail fX fY tx ty steps =
      (List.range (steps + 1)).map (plannedStep avail fX fY tx ty steps) := by
  have h := runLoop_range' avail fX fY tx ty steps (steps + 1) 0
  rw [Nat.zero_sub, targetMoved_zero, targetMoved_zero] at h
  rw [plannedPath, List.range_eq_range']
  exact h

/-- Telescoping: the deltas against the previous value of a function that
starts at 0 sum to its last value. -/
theorem sum_map_sub_pred (f : Nat → ℤ) (h0 : f 0 = 0) :
    ∀ n, ((List.range (n + 1)).map (fun i => f i - f (i - 1))).sum = f n := by
  intro n
  induction n with
  | zero =>
      simp [List.range_succ, h0]
  | succ m ih =>
      rw [List.range_succ, List.map_append, List.sum_append, ih]
      simp

/-- With the uinput backend active, the emitted x-deltas of the planned
path sum to the total x-displacement: the telescoping against target
cumulative displacements cancels all truncation. -/
theorem plannedPath_relDx_sum (fX fY tx ty : ℤ) {steps : Nat} (h : 1 ≤ steps) :
    ((plannedPath true fX fY tx ty steps).map relDx).sum = tx := by
  rw [plannedPath_eq, List.map_map]
  have hcomp : relDx ∘ plannedStep true fX fY tx ty steps =
      fun i => targetMoved tx steps i - targetMoved tx steps (i - 1) := by
    funext i
    simp [plannedStep, relDx]
  rw [hcomp, sum_map_sub_pred (fun i => targetMoved tx steps i)
    (targetMoved_zero tx steps) steps]
  exact targetMoved_last tx h

/-- Same as `plannedPath_relDx_sum` for the y-axis. -/
theorem plannedPath_relDy_sum (fX fY tx ty : ℤ) {steps : Nat} (h : 1 ≤ steps) :
    ((plannedPath true fX fY tx ty steps).map relDy).sum = ty := by
  rw [plannedPath_eq, List.map_map]
  have hcomp : relDy ∘ plannedStep true fX fY tx ty steps =
      fun i => targetMoved ty steps i - targetMoved ty steps (i - 1) := by
    funext i
    simp [plannedStep, relDy]
  rw [hcomp, sum_map_sub_pred (fun i => targetMoved ty steps i)
    (targetMoved_zero ty steps) steps]
  exact targetMoved_last ty h

/-- Every planned relative delta has the sign of the corresponding total
displacement component (or is zero). -/
theorem plannedStep_sign (fX fY tx ty : ℤ) {steps : Nat} (h : 1 ≤ steps) :
    ∀ e ∈ plannedPath true fX fY tx ty steps,
      (0 ≤ tx → 0 ≤ relDx e) ∧ (tx ≤ 0 → relDx e ≤ 0) ∧
      (0 ≤ ty → 0 ≤ relDy e) ∧ (ty ≤ 0 → relDy e ≤ 0) := by
  intro e he
  rw [plannedPath_eq] at he
  rcases List.mem_map.1 he with ⟨i, hi, rfl⟩
  have hi' : i ≤ steps := Nat.lt_succ_iff.mp (List.mem_range.1 hi)
  have hpred : i - 1 ≤ i := Nat.sub_le i 1
  refine ⟨?_, ?_, ?_, ?_⟩ <;> intro hsign <;> simp only [plannedStep, if_true, relDx, relDy]
  · exact sub_nonneg.2 (targetMoved_le tx hsign h hpred hi')
  · exact sub_nonpos.2 (targetMoved_ge tx hsign h hpred hi')
  · exact sub_nonneg.2 (targetMoved_le ty hsign h hpred hi')
  · exact sub_nonpos.2 (targetMoved_ge ty hsign h hpred hi')

/-- C2: for every start and target point, step count `N ≥ 1` and duration
`T > 0`, a `smooth_move` whose uinput device is available emits relative
deltas summing exactly to the total displacement on both axes — integer
truncation leaves no residual drift — and finishes by setting the tracked
position exactly to the target. -/
theorem smooth_move_no_drift (lastX lastY toX toY : ℤ) (d : Device)
    (steps : Nat) (duration : ℚ) (create : Except String Device)
    (hsteps : 1 ≤ steps) (hdur : 0 < duration) :
    smooth_move ⟨lastX, lastY, some d⟩ toX toY steps duration create =
      (.ok (plannedPath true lastX lastY (toX - lastX) (toY - lastY) steps),
       ⟨toX, toY, some d⟩) ∧
    ((plannedPath true lastX lastY (toX - lastX) (toY - lastY) steps).map relDx).sum =
      toX - lastX ∧
    ((plannedPath true lastX lastY (toX - lastX) (toY - lastY) steps).map relDy).sum =
      toY - lastY := by
  have h0 : steps ≠ 0 := by omega
  refine ⟨?_, plannedPath_relDx_sum _ _ _ _ hsteps, plannedPath_relDy_sum _ _ _ _ hsteps⟩
  simp [smooth_move, getUInputDevice, h0]

/-- Witness for `smooth_move_no_drift`: moving from `(3, 4)` to
`(10, -20)` in 5 steps. -/
theorem smooth_move_no_drift_witness :
    smooth_move ⟨3, 4, some ⟨0⟩⟩ 10 (-20) 5 (1 / 2) (.ok ⟨0⟩) =
      (.ok (plannedPath true 3 4 (10 - 3) (-20 - 4) 5), ⟨10, -20, some ⟨0⟩⟩) ∧
    ((plannedPath true 3 4 (10 - 3) (-20 - 4) 5).map relDx).sum = 10 - 3 ∧
    ((plannedPath true 3 4 (10 - 3) (-20 - 4) 5).map relDy).sum = -20 - 4 :=
  smooth_move_no_drift 3 4 10 (-20) ⟨0⟩ 5 (1 / 2) (.ok ⟨0⟩) (by norm_num) (by norm_num)

/-- C9: for every move with `N ≥ 1` steps, each emitted delta component
has the same sign as the corresponding component of the total
displacement or is zero, so the cumulative path is monotone along each
axis and never overshoots or reverses. -/
theorem smooth_move_monotone (lastX lastY toX toY : ℤ) (d : Device)
    (steps : Nat) (duration : ℚ) (create : Except String Device)
    (hsteps : 1 ≤ steps) :
    (smooth_move ⟨lastX, lastY, some d⟩ toX toY steps duration create).1 =
      .ok (plannedPath true lastX lastY (toX - lastX) (toY - lastY) steps) ∧
    ∀ e ∈ plannedPath true lastX lastY (toX - lastX) (toY - lastY) steps,
      (0 ≤ toX - lastX → 0 ≤ relDx e) ∧ (toX - lastX ≤ 0 → relDx e ≤ 0) ∧
      (0 ≤ toY - lastY → 0 ≤ relDy e) ∧ (toY - lastY ≤ 0 → relDy e ≤ 0) := by
  have h0 : steps ≠ 0 := by omega
  refine ⟨?_, plannedStep_sign _ _ _ _ hsteps⟩
  simp [smooth_move, getUInputDevice, h0]

/-- The planned path of the witness move has six emissions. -/
theorem monoWitness_len : 3 < (plannedPath true 3 4 (10 - 3) (-20 - 4) 5).length := by
  rw [plannedPath_eq]
  simp

/-- A concrete element of the planned path used by the witness of
`smooth_move_monotone`. -/
def monoWitnessElem : Emission :=
  (plannedPath true 3 4 (10 - 3) (-20 - 4) 5).get ⟨3, monoWitness_len⟩

/-- Witness for `smooth_move_monotone` at a concrete move and a concrete
element of its planned path. -/
theorem smooth_move_monotone_witness :
    (0 ≤ (10 : ℤ) - 3 → 0 ≤ relDx monoWitnessElem) ∧
    ((10 : ℤ) - 3 ≤ 0 → relDx monoWitnessElem ≤ 0) ∧
    (0 ≤ (-20 : ℤ) - 4 → 0 ≤ relDy monoWitnessElem) ∧
    ((-20 : ℤ) - 4 ≤ 0 → relDy monoWitnessElem ≤ 0) :=
  (smooth_move_monotone 3 4 10 (-20) ⟨0⟩ 5 (1 / 2) (.ok ⟨0⟩) (by norm_num)).2
    monoWitnessElem (List.get_mem _ _ _)

/-- C1 counterexample: `handle_command` constructs a fresh `Screencast()`
for every record command, so the start-when-recording guard cannot see an
in-progress recording of another command.  Concretely: a first command's
session has started and is still recording; a second record command,
whose own fresh session's service call succeeds, returns status `"ok"` —
not the error response the claim requires — and its session is also
recording mid-command, so two sessions are `recording = true` at once. -/
theorem record_mutual_exclusion_counterexample :
    (Screencast.init.start "/tmp/a.webm" (.ok (true, "/tmp/a.webm"))).2.1.recording = true ∧
    (Screencast.init.start "/tmp/b.webm" (.ok (true, "/tmp/b.webm"))).2.1.recording = true ∧
    (handle_command
        { dir := ["noop.py"], loader := fun _ => .loaded true (.ok ()),
          startSvc := .ok (true, "/tmp/b.webm"), stopSvc := .ok true }
        { action := some "record", scenario := some "noop",
          output := some "/tmp/b.webm" }).1 =
      .ok { status := "ok", output := some "/tmp/b.webm" } ∧
    "ok" ≠ "error" := by
  refine ⟨rfl, rfl, rfl, ?_⟩
  decide

/-- C1 amended: each record command uses a fresh session, so daemon-level
mutual exclusion is not enforced by the session guard; a concurrent
second record command receives an error response exactly when its own
service start call fails, in which case it performs no stop call, and the
first command's session object — a distinct value the second command
never touches — remains recording. -/
theorem record_uses_fresh_session (env : RecordEnv) (name out : String)
    (run : Except String Unit) (s1 : Screencast)
    (h1 : (name ++ ".py") ∈ env.dir)
    (h2 : env.loader name = .loaded true run)
    (h3 : startReportsFailure env.startSvc = true)
    (h4 : s1.recording = true) :
    (handle_command env
        { action := some "record", scenario := some name, output := some out }).1 =
      .ok { status := "error", message := some "Failed to start recording" } ∧
    (handle_command env
        { action := some "record", scenario := some name, output := some out }).2.stopCalls = 0 ∧
    s1.recording = true := by
  cases hsvc : env.startSvc with
  | ok v =>
      obtain ⟨succ, p⟩ := v
      rw [hsvc] at h3
      simp only [startReportsFailure, Bool.not_eq_true'] at h3
      refine ⟨?_, ?_, h4⟩ <;>
        simp [handle_command, load_scenario, pyShowOpt, h1, h2, hsvc, h3,
          Screencast.start, Screencast.init]
  | glibError m =>
      refine ⟨?_, ?_, h4⟩ <;>
        simp [handle_command, load_scenario, pyShowOpt, h1, h2, hsvc,
          Screencast.start, Screencast.init]

/-- Witness for `record_uses_fresh_session` with a concrete environment
whose service refuses the second start. -/
theorem record_uses_fresh_session_witness :
    (handle_command
        { dir := ["noop.py"], loader := fun _ => .loaded true (.ok ()),
          startSvc := .ok (false, ""), stopSvc := .ok true }
        { action := some "record", scenario := some "noop",
          output := some "/tmp/c.webm" }).1 =
      .ok { status := "error", message := some "Failed to start recording" } ∧
    (handle_command
        { dir := ["noop.py"], loader := fun _ => .loaded true (.ok ()),
          startSvc := .ok (false, ""), stopSvc := .ok true }
        { action := some "record", scenario := some "noop",
          output := some "/tmp/c.webm" }).2.stopCalls = 0 ∧
    ({ recording := true, output_path := some "/tmp/a.webm", proxyCreated := true } :
      Screencast).recording = true :=
  record_uses_fresh_session
    { dir := ["noop.py"], loader := fun _ => .loaded true (.ok ()),
      startSvc := .ok (false, ""), stopSvc := .ok true }
    "noop" "/tmp/c.webm" (.ok ())
    { recording := true, output_path := some "/tmp/a.webm", proxyCreated := true }
    (by decide) rfl rfl rfl

/-- C3: once a record command's scenario loads and its recording starts,
`screencast.stop()` is invoked exactly once whatever `run()` does (the
`finally` block), and when `run()` raises, the client receives an error
response carrying the exception's message. -/
theorem record_cleanup_stop (env : RecordEnv) (name out msg : String)
    (run : Except String Unit)
    (h1 : (name ++ ".py") ∈ env.dir)
    (h2 : env.loader name = .loaded true run)
    (h3 : startReportsSuccess env.startSvc = true) :
    (handle_command env
        { action := some "record", scenario := some name, output := some out }).2.stopCalls = 1 ∧
    (run = .error msg →
      (handle_client_result env
          (.ok { action := some "record", scenario := some name, output := some out })).1 =
        { status := "error", message := some msg }) := by
  cases hsvc : env.startSvc with
  | ok v =>
      obtain ⟨succ, p⟩ := v
      rw [hsvc] at h3
      simp only [startReportsSuccess] at h3
      constructor
      · cases hrun : run <;>
          simp [handle_command, load_scenario, pyShowOpt, h1, h2, hsvc, h3, hrun,
            Screencast.start, Screencast.init]
      · intro hrun
        subst hrun
        simp [handle_client_result, handle_command, load_scenario, pyShowOpt,
          h1, h2, hsvc, h3, Screencast.start, Screencast.init, PyError.str]
  | glibError m =>
      rw [hsvc] at h3
      simp [startReportsSuccess] at h3

/-- Witness for `record_cleanup_stop`: scenario `boom` raises `kaboom`. -/
theorem record_cleanup_stop_witness :
    (handle_command
        { dir := ["boom.py"], loader := fun _ => .loaded true (.error "kaboom"),
          startSvc := .ok (true, "/tmp/r.webm"), stopSvc := .ok true }
        { action := some "record", scenario := some "boom",
          output := some "/tmp/r.webm" }).2.stopCalls = 1 ∧
    ((Except.error "kaboom" : Except String Unit) = .error "kaboom" →
      (handle_client_result
          { dir := ["boom.py"], loader := fun _ => .loaded true (.error "kaboom"),
            startSvc := .ok (true, "/tmp/r.webm"), stopSvc := .ok true }
          (.ok { action := some "record", scenario := some "boom",
                 output := some "/tmp/r.webm" })).1 =
        { status := "error", message := some "kaboom" }) :=
  record_cleanup_stop
    { dir := ["boom.py"], loader := fun _ => .loaded true (.error "kaboom"),
      startSvc := .ok (true, "/tmp/r.webm"), stopSvc := .ok true }
    "boom" "/tmp/r.webm" "kaboom" (.error "kaboom") (by decide) rfl rfl

/-- C7: every `list_scenarios` command returns status ok with exactly the
stems of the `*.py` entries of the scenarios directory that do not begin
with an underscore.  `handle_command` consults no mutable state on this
path — the result is a pure function of the directory listing, so
repetition and interleaving with other commands cannot change it. -/
theorem list_scenarios_exact (env : RecordEnv) (s : String) :
    (handle_command env { action := some "list_scenarios" }).1 =
      .ok { status := "ok", scenarios := some (list_scenarios env.dir) } ∧
    (s ∈ list_scenarios env.dir ↔
      (∃ f ∈ env.dir, globPyMatch f = true ∧ pyStem f = s) ∧
        s.startsWith "_" = false) := by
  constructor
  · simp [handle_command]
  · constructor
    · intro hs
      obtain ⟨hmap, hu⟩ := List.mem_filter.mp hs
      obtain ⟨f, hf, hst⟩ := List.mem_map.mp hmap
      obtain ⟨hfd, hg⟩ := List.mem_filter.mp hf
      exact ⟨⟨f, hfd, hg, hst⟩, by simpa using hu⟩
    · rintro ⟨⟨f, hfd, hg, hst⟩, hu⟩
      exact List.mem_filter.mpr
        ⟨List.mem_map.mpr ⟨f, List.mem_filter.mpr ⟨hfd, hg⟩, hst⟩, by simpa using hu⟩

/-- C8: a record command naming a scenario with no file in the scenarios
directory yields an error response whose message is the NotFound message
of `load_scenario`, and the screencast machinery is never touched: no
session is created and no service start call occurs (the trace is
empty). -/
theorem record_not_found (env : RecordEnv) (name out : String)
    (h : (name ++ ".py") ∉ env.dir) :
    load_scenario env.dir env.loader name =
      .error (.fileNotFound ("Scenario not found: " ++ (name ++ ".py"))) ∧
    handle_command env
        { action := some "record", scenario := some name, output := some out } =
      (.ok { status := "error",
             message := some ("Scenario not found: " ++ (name ++ ".py")) },
       RecordTrace.empty) := by
  have hload : load_scenario env.dir env.loader name =
      .error (.fileNotFound ("Scenario not found: " ++ (name ++ ".py"))) := by
    simp [load_scenario, h]
  refine ⟨hload, ?_⟩
  simp [handle_command, pyShowOpt, hload, PyError.str]

/-- Witness for `record_not_found` on the `does_not_exist` scenario. -/
theorem record_not_found_witness :
    load_scenario ["basic_usage.py"] (fun _ => LoadResult.specNone) "does_not_exist" =
      .error (.fileNotFound ("Scenario not found: " ++ ("does_not_exist" ++ ".py"))) ∧
    handle_command
        { dir := ["basic_usage.py"], loader := fun _ => LoadResult.specNone,
          startSvc := .ok (true, ""), stopSvc := .ok true }
        { action := some "record", scenario := some "does_not_exist",
          output := some "/tmp/x.webm" } =
      (.ok { status := "error",
             message := some ("Scenario not found: " ++ ("does_not_exist" ++ ".py")) },
       RecordTrace.empty) :=
  record_not_found
    { dir := ["basic_usage.py"], loader := fun _ => LoadResult.specNone,
      startSvc := .ok (true, ""), stopSvc := .ok true }
    "does_not_exist" "/tmp/x.webm" (by decide)
